import Mathlib

/-!
Verification of the starlette_exporter repository. The only source file
supplied is src/setup.py, a packaging descriptor; it is embedded below as
a function of the README.md contents (the single run-time input it reads).
The middleware and the metrics handler the package describes are not in
the supplied source tree, so where a claim needs them they are modelled
from the specification; every such definition carries a doc comment that
starts with "Modelled from the spec:".
-/

namespace StarletteExporter

/-- Keyword arguments of a call to setuptools.setup, as relevant to
src/setup.py. Arguments the source never passes (entry_points, scripts)
are modelled as Option fields so that their absence is expressible. -/
structure SetupArgs where
  name : String
  version : String
  author : String
  author_email : String
  packages : List String
  package_data : List (String × List String)
  license : String
  url : String
  description : String
  long_description : String
  long_description_content_type : String
  install_requires : List String
  entry_points : Option (List (String × String))
  scripts : Option (List String)
  deriving Repr, DecidableEq

/-- Top-level effects that evaluating a Python module can perform, limited
to the kinds relevant here: defining a class, defining a function, or
calling setuptools.setup. -/
inductive Effect where
  | defClass (className : String)
  | defFunc (funcName : String)
  | setupCall (args : SetupArgs)
  deriving Repr, DecidableEq

/-- Errors that evaluating src/setup.py can raise: the open call on a file
that is absent or unreadable raises a file error naming that file. -/
inductive PyError where
  | fileError (path : String)
  deriving Repr, DecidableEq

/-- The argument record built by the setup call in src/setup.py. The only
run-time input is the text read from README.md, which becomes
long_description; every other argument is a literal in the source. -/
def setupArgs (readme : String) : SetupArgs :=
  ⟨"starlette_exporter",
   "0.14.0",
   "Stephen Hillier",
   "stephenhillier@gmail.com",
   ["starlette_exporter"],
   [("starlette_exporter", ["py.typed"])],
   "Apache License 2.0",
   "https://github.com/stephenhillier/starlette_exporter",
   "Prometheus metrics exporter for Starlette applications.",
   readme,
   "text/markdown",
   ["prometheus_client", "starlette"],
   none,
   none⟩

/-- Evaluation of the module src/setup.py. The file system is abstracted to
the contents of README.md in the working directory, where none means the
file is absent or unreadable. The module imports setup and then evaluates
one expression statement: it opens and reads README.md, failing with a
file error if it cannot, and otherwise performs exactly one setup call
with the fixed arguments; it defines no class and no function. -/
def evalSetupPy (readme : Option String) : Except PyError (List Effect) :=
  match readme with
  | none => Except.error (PyError.fileError "README.md")
  | some r => Except.ok [Effect.setupCall (setupArgs r)]

/-- Whether an effect is a call to setuptools.setup. -/
def isSetupCall : Effect → Bool
  | Effect.setupCall _ => true
  | _ => false

/-- Whether an effect defines a class or a function. -/
def isDefn : Effect → Bool
  | Effect.defClass _ => true
  | Effect.defFunc _ => true
  | _ => false

/-- Modelled from the spec: an HTTP request as the middleware sees it,
reduced to the fields used as metric labels: the method and the routed
path. -/
structure Request where
  method : String
  path : String
  deriving Repr, DecidableEq

/-- Modelled from the spec: an HTTP response with its status code, content
type and body. -/
structure Response where
  status : Nat
  contentType : String
  body : String
  deriving Repr, DecidableEq

/-- Modelled from the spec: the label key (method, route, status) under
which the counter and the histogram are updated. -/
structure Labels where
  method : String
  route : String
  status : Nat
  deriving Repr, DecidableEq

/-- Modelled from the spec: the state held by the third-party metrics
client library: a counter value per label set and the list of histogram
observations, each an elapsed time recorded under its label set. Clock
readings are modelled as Nat. -/
structure MetricsState where
  counter : List (Labels × Nat)
  observations : List (Labels × Nat)
  deriving Repr, DecidableEq

/-- Modelled from the spec: an unhandled exception raised by a downstream
handler. The package defines no error taxonomy of its own, so the type
carries only text owned by the host. -/
inductive Exn where
  | exn (msg : String)
  deriving Repr, DecidableEq

/-- Modelled from the spec: a downstream application or handler. Given the
request and the clock time at which handling starts, it either raises an
unhandled exception or returns a response together with the clock time at
which the response is produced. -/
abbrev App := Request → Nat → Except Exn (Response × Nat)

/-- Current value of a counter at a label set, zero when never touched. -/
def counterGet : List (Labels × Nat) → Labels → Nat
  | [], _ => 0
  | (l', n) :: rest, l => if l' = l then n else counterGet rest l

/-- Increment the counter at a label set by one, creating it at one when
it was never touched. -/
def counterInc : List (Labels × Nat) → Labels → List (Labels × Nat)
  | [], l => [(l, 1)]
  | (l', n) :: rest, l =>
      if l' = l then (l', n + 1) :: rest else (l', n) :: counterInc rest l

/-- Modelled from the spec: the middleware class. On each incoming request
it records the start time, delegates to the downstream app, and on the
response computes the elapsed time and updates one counter and one
histogram keyed by the request method, route and status; an unhandled
exception from downstream is returned unchanged, with no metrics response
substituted for it. -/
def prometheusMiddleware (app : App) (req : Request) (startTime : Nat)
    (st : MetricsState) : Except Exn (Response × MetricsState) :=
  match app req startTime with
  | Except.error e => Except.error e
  | Except.ok (resp, endTime) =>
      Except.ok (resp,
        ⟨counterInc st.counter ⟨req.method, req.path, resp.status⟩,
         st.observations ++
           [(⟨req.method, req.path, resp.status⟩, endTime - startTime)]⟩)

/-- Modelled from the spec: the request handler function served on the
dedicated metrics path. It calls the exposition-format renderer of the
metrics client library and returns the rendered text as the body of a 200
response with a text content type. -/
def handle_metrics (render : MetricsState → String) (st : MetricsState) :
    Response :=
  ⟨200, "text/plain", render st⟩

/-- Modelled from the spec: the primitive operations the wrapper could
perform while handling one request. Lock creation and thread spawning are
included as constructors so that their absence from the actual trace is
expressible. -/
inductive MwEffect where
  | readClock
  | callDownstream
  | updateCounter (l : Labels)
  | observeHistogram (l : Labels) (elapsed : Nat)
  | createLock
  | spawnThread
  deriving Repr, DecidableEq

/-- Modelled from the spec: the trace of primitive operations the
middleware performs for one request: read the clock, call downstream, and
on a response update the counter and observe the histogram. -/
def middlewareEffects (app : App) (req : Request) (startTime : Nat) :
    List MwEffect :=
  MwEffect.readClock :: MwEffect.callDownstream ::
    (match app req startTime with
     | Except.error _ => []
     | Except.ok (resp, endTime) =>
         [MwEffect.updateCounter ⟨req.method, req.path, resp.status⟩,
          MwEffect.observeHistogram ⟨req.method, req.path, resp.status⟩
            (endTime - startTime)])

/-- Kinds of objects the installed package exposes. -/
inductive ExportKind where
  | middlewareClass
  | handlerFunction
  deriving Repr, DecidableEq

/-- A named object exposed by the installed package. -/
structure PackageExport where
  exportName : String
  kind : ExportKind
  deriving Repr, DecidableEq

/-- Modelled from the spec: the public surface of the installed package:
one middleware class and one request handler function. -/
def packageExports : List PackageExport :=
  [⟨"PrometheusMiddleware", ExportKind.middlewareClass⟩,
   ⟨"handle_metrics", ExportKind.handlerFunction⟩]

/-- Modelled from the spec: a host application with its standard
registration mechanisms: a list of registered middleware and a route
table. -/
structure HostApp where
  middlewares : List PackageExport
  routes : List (String × PackageExport)
  deriving Repr, DecidableEq

/-- Modelled from the spec: the standard middleware-registration mechanism
of the host framework. -/
def addMiddleware (a : HostApp) (m : PackageExport) : HostApp :=
  ⟨a.middlewares ++ [m], a.routes⟩

/-- Modelled from the spec: the standard route-registration mechanism of
the host framework. -/
def addRoute (a : HostApp) (path : String) (h : PackageExport) : HostApp :=
  ⟨a.middlewares, a.routes ++ [(path, h)]⟩

/-- A concrete downstream app used to evaluate the middleware model on
concrete inputs: it always succeeds with status 200 after three clock
ticks. -/
def sampleApp : App := fun _ t =>
  Except.ok (⟨200, "text/html", "hello"⟩, t + 3)

/-- A concrete downstream app that always raises an unhandled exception. -/
def sampleFailingApp : App := fun _ _ =>
  Except.error (Exn.exn "boom")

/-- A concrete request used to evaluate the middleware model. -/
def sampleRequest : Request := ⟨"GET", "/home"⟩

theorem counterGet_counterInc (c : List (Labels × Nat)) (l : Labels) :
    counterGet (counterInc c l) l = counterGet c l + 1 := by
  induction c with
  | nil => simp [counterInc, counterGet]
  | cons hd tl ih =>
      obtain ⟨l', n⟩ := hd
      by_cases h : l' = l
      · simp [counterInc, counterGet, h]
      · simp [counterInc, counterGet, h, ih]

/-- C1: evaluating src/setup.py performs exactly one call to
setuptools.setup, with the fixed argument record built from the README
contents, and defines no class, no function and nothing else. -/
theorem C1_setup_py_is_pure_packaging (r : String) (effs : List Effect)
    (h : evalSetupPy (some r) = Except.ok effs) :
    effs = [Effect.setupCall (setupArgs r)] ∧
    (effs.filter isSetupCall).length = 1 ∧
    effs.filter isDefn = [] := by
  have h2 := h
  simp only [evalSetupPy, Except.ok.injEq] at h2
  subst h2
  exact ⟨rfl, rfl, rfl⟩

theorem C1_setup_py_is_pure_packaging_witness :
    evalSetupPy (some "example readme") =
        Except.ok [Effect.setupCall (setupArgs "example readme")] ∧
      ([Effect.setupCall (setupArgs "example readme")] =
          [Effect.setupCall (setupArgs "example readme")] ∧
        ((List.filter isSetupCall
            [Effect.setupCall (setupArgs "example readme")]).length = 1 ∧
          List.filter isDefn
            [Effect.setupCall (setupArgs "example readme")] = [])) :=
  ⟨rfl, C1_setup_py_is_pure_packaging "example readme"
    [Effect.setupCall (setupArgs "example readme")] rfl⟩

/-- C2: the descriptor declares exactly two install requirements,
prometheus_client and starlette, in that order, and no other. -/
theorem C2_install_requires_exactly_two (r : String) :
    (setupArgs r).install_requires = ["prometheus_client", "starlette"] ∧
    (setupArgs r).install_requires.length = 2 :=
  ⟨rfl, rfl⟩

/-- C3: the package exposes a middleware class and a request handler
function, and a host application can consume each through its standard
middleware-registration and route-registration mechanism. -/
theorem C3_exports_middleware_and_handler :
    (⟨"PrometheusMiddleware", ExportKind.middlewareClass⟩ : PackageExport)
        ∈ packageExports ∧
    (⟨"handle_metrics", ExportKind.handlerFunction⟩ : PackageExport)
        ∈ packageExports ∧
    ∀ (a : HostApp) (path : String),
      (addMiddleware a
          ⟨"PrometheusMiddleware", ExportKind.middlewareClass⟩).middlewares =
        a.middlewares ++
          [⟨"PrometheusMiddleware", ExportKind.middlewareClass⟩] ∧
      (addRoute a path
          ⟨"handle_metrics", ExportKind.handlerFunction⟩).routes =
        a.routes ++ [(path, ⟨"handle_metrics", ExportKind.handlerFunction⟩)] := by
  refine ⟨by decide, by decide, ?_⟩
  intro a path
  exact ⟨rfl, rfl⟩

/-- C4: for every request handled through the middleware, the elapsed time
is the response-time clock reading minus the recorded start time, and one
counter is incremented and one histogram observation recorded under the
method, route and status labels; the metrics-path handler returns the
renderer output as the response body. -/
theorem C4_middleware_records_metrics (app : App) (req : Request)
    (startTime : Nat) (st : MetricsState) (resp : Response) (endTime : Nat)
    (h : app req startTime = Except.ok (resp, endTime)) :
    prometheusMiddleware app req startTime st =
      Except.ok (resp,
        ⟨counterInc st.counter ⟨req.method, req.path, resp.status⟩,
         st.observations ++
           [(⟨req.method, req.path, resp.status⟩, endTime - startTime)]⟩) ∧
    ∀ (render : MetricsState → String) (s : MetricsState),
      (handle_metrics render s).body = render s := by
  constructor
  · unfold prometheusMiddleware
    rw [h]
  · intro render s
    rfl

theorem C4_middleware_records_metrics_witness :
    sampleApp sampleRequest 5 =
        Except.ok ((⟨200, "text/html", "hello"⟩ : Response), 8) ∧
      (prometheusMiddleware sampleApp sampleRequest 5 ⟨[], []⟩ =
          Except.ok ((⟨200, "text/html", "hello"⟩ : Response),
            ⟨counterInc [] ⟨"GET", "/home", 200⟩,
             [] ++ [((⟨"GET", "/home", 200⟩ : Labels), 8 - 5)]⟩) ∧
        ∀ (render : MetricsState → String) (s : MetricsState),
          (handle_metrics render s).body = render s) :=
  ⟨rfl, C4_middleware_records_metrics sampleApp sampleRequest 5 ⟨[], []⟩
    ⟨200, "text/html", "hello"⟩ 8 rfl⟩

/-- C5: an unhandled exception from the downstream handler is returned by
the middleware unchanged: the same exception value, with nothing
substituted and nothing suppressed. -/
theorem C5_exceptions_propagate_unchanged (app : App) (req : Request)
    (startTime : Nat) (st : MetricsState) (e : Exn)
    (h : app req startTime = Except.error e) :
    prometheusMiddleware app req startTime st = Except.error e := by
  unfold prometheusMiddleware
  rw [h]

theorem C5_exceptions_propagate_unchanged_witness :
    sampleFailingApp sampleRequest 0 = Except.error (Exn.exn "boom") ∧
      prometheusMiddleware sampleFailingApp sampleRequest 0 ⟨[], []⟩ =
        Except.error (Exn.exn "boom") :=
  ⟨rfl, C5_exceptions_propagate_unchanged sampleFailingApp sampleRequest 0
    ⟨[], []⟩ (Exn.exn "boom") rfl⟩

/-- C6: the setup call passes no entry_points and no scripts argument, so
installing the package installs no console scripts and defines no CLI. -/
theorem C6_no_entry_points_no_scripts (r : String) :
    (setupArgs r).entry_points = none ∧ (setupArgs r).scripts = none :=
  ⟨rfl, rfl⟩

/-- C7: a request handled through the middleware increments the counter at
its method, route and status labels by exactly one, and a request to the
metrics endpoint gets a 200 response with a text content type. -/
theorem C7_counters_increment_and_metrics_200 (app : App) (req : Request)
    (startTime : Nat) (st : MetricsState) (resp : Response) (endTime : Nat)
    (h : app req startTime = Except.ok (resp, endTime)) :
    (∃ st2 : MetricsState,
      prometheusMiddleware app req startTime st = Except.ok (resp, st2) ∧
      counterGet st2.counter ⟨req.method, req.path, resp.status⟩ =
        counterGet st.counter ⟨req.method, req.path, resp.status⟩ + 1) ∧
    ∀ (render : MetricsState → String) (s : MetricsState),
      (handle_metrics render s).status = 200 ∧
      (handle_metrics render s).contentType = "text/plain" := by
  constructor
  · refine ⟨⟨counterInc st.counter ⟨req.method, req.path, resp.status⟩,
      st.observations ++
        [(⟨req.method, req.path, resp.status⟩, endTime - startTime)]⟩, ?_, ?_⟩
    · unfold prometheusMiddleware
      rw [h]
    · exact counterGet_counterInc _ _
  · intro render s
    exact ⟨rfl, rfl⟩

theorem C7_counters_increment_and_metrics_200_witness :
    sampleApp sampleRequest 5 =
        Except.ok ((⟨200, "text/html", "hello"⟩ : Response), 8) ∧
      ((∃ st2 : MetricsState,
        prometheusMiddleware sampleApp sampleRequest 5 ⟨[], []⟩ =
            Except.ok ((⟨200, "text/html", "hello"⟩ : Response), st2) ∧
          counterGet st2.counter ⟨"GET", "/home", 200⟩ =
            counterGet [] ⟨"GET", "/home", 200⟩ + 1) ∧
        ∀ (render : MetricsState → String) (s : MetricsState),
          (handle_metrics render s).status = 200 ∧
          (handle_metrics render s).contentType = "text/plain") :=
  ⟨rfl, C7_counters_increment_and_metrics_200 sampleApp sampleRequest 5
    ⟨[], []⟩ ⟨200, "text/html", "hello"⟩ 8 rfl⟩

/-- C8: on no request does the wrapper create a lock or spawn a thread: no
concurrency primitive of its own appears in its effect trace. -/
theorem C8_no_concurrency_primitives (app : App) (req : Request)
    (startTime : Nat) :
    MwEffect.createLock ∉ middlewareEffects app req startTime ∧
    MwEffect.spawnThread ∉ middlewareEffects app req startTime := by
  unfold middlewareEffects
  cases app req startTime with
  | error e => constructor <;> simp
  | ok p =>
      cases p with
      | mk resp endTime => constructor <;> simp

/-- C9: with README.md absent or unreadable, evaluating src/setup.py
raises a file error naming README.md, and no list of effects - in
particular no setup call - is produced. -/
theorem C9_missing_readme_fails_before_setup :
    evalSetupPy none = Except.error (PyError.fileError "README.md") ∧
    (evalSetupPy none).toOption = none :=
  ⟨rfl, rfl⟩

/-- C10: the setup arguments are a deterministic pure function of the
README.md contents, and every argument other than long_description is the
fixed constant the source writes. -/
theorem C10_setup_args_deterministic (r1 r2 : String) (h : r1 = r2) :
    setupArgs r1 = setupArgs r2 ∧
    (setupArgs r1).name = "starlette_exporter" ∧
    (setupArgs r1).version = "0.14.0" ∧
    (setupArgs r1).packages = ["starlette_exporter"] ∧
    (setupArgs r1).package_data = [("starlette_exporter", ["py.typed"])] ∧
    (setupArgs r1).license = "Apache License 2.0" ∧
    (setupArgs r1).install_requires = ["prometheus_client", "starlette"] ∧
    (setupArgs r1).author = "Stephen Hillier" ∧
    (setupArgs r1).author_email = "stephenhillier@gmail.com" ∧
    (setupArgs r1).url = "https://github.com/stephenhillier/starlette_exporter" ∧
    (setupArgs r1).description =
      "Prometheus metrics exporter for Starlette applications." ∧
    (setupArgs r1).long_description_content_type = "text/markdown" ∧
    (setupArgs r1).long_description = r1 := by
  subst h
  exact ⟨rfl, rfl, rfl, rfl, rfl, rfl, rfl, rfl, rfl, rfl, rfl, rfl, rfl⟩

theorem C10_setup_args_deterministic_witness :
    ("# starlette exporter" : String) = "# starlette exporter" ∧
      (setupArgs "# starlette exporter" = setupArgs "# starlette exporter" ∧
        (setupArgs "# starlette exporter").name = "starlette_exporter" ∧
        (setupArgs "# starlette exporter").version = "0.14.0" ∧
        (setupArgs "# starlette exporter").packages = ["starlette_exporter"] ∧
        (setupArgs "# starlette exporter").package_data =
          [("starlette_exporter", ["py.typed"])] ∧
        (setupArgs "# starlette exporter").license = "Apache License 2.0" ∧
        (setupArgs "# starlette exporter").install_requires =
          ["prometheus_client", "starlette"] ∧
        (setupArgs "# starlette exporter").author = "Stephen Hillier" ∧
        (setupArgs "# starlette exporter").author_email =
          "stephenhillier@gmail.com" ∧
        (setupArgs "# starlette exporter").url =
          "https://github.com/stephenhillier/starlette_exporter" ∧
        (setupArgs "# starlette exporter").description =
          "Prometheus metrics exporter for Starlette applications." ∧
        (setupArgs "# starlette exporter").long_description_content_type =
          "text/markdown" ∧
        (setupArgs "# starlette exporter").long_description =
          "# starlette exporter") :=
  ⟨rfl, C10_setup_args_deterministic "# starlette exporter"
    "# starlette exporter" rfl⟩

end StarletteExporter
